import Mathlib

/-!
Verification of the autonomous blackjack game-loop core.

The definitions below are a shallow embedding of the repository's
TypeScript and Solidity sources:

* `src/lib/game-loop.ts` — the `GameLoop` class (state machine, statistics,
  result parsing, hand loop, resumption branching);
* `src/lib/rpc-client.ts` — the `BlackjackRPCClient` (VRF polling,
  trading-period wait, status classification helpers);
* `src/app/api/agent/action-providers/blackjack/blackjackActionProvider.ts`
  — the action provider's own VRF poller `pollGameState`;
* `src/lib/autonomous-player.ts` — the singleton runner and its error
  bookkeeping;
* the `calculateTotal` helper of the `useAutonomousPlayer` hook and the
  contract's `_cardValue` / `_calculateHandValue` (`Blackjack.sol`).

JavaScript `number` counters are modelled as `Nat`, `bigint` fields as
`Nat`, and the floating-point `winRate` as `ℚ` (exact division).  Wall
clock time is replaced by fuel: a poller allowed to run for 300000 ms at a
2000 ms interval performs at most 150 reads, so fuel 150 models the
default timeout.  Every chain read (`getGameStatus`) consumes the next
element of a read stream `Nat → GameDisplay`; the stream index is threaded
through as an explicit cursor.
-/

namespace Blackjack

/-- Character-list prefix test, the building block for the substring test
used to model JavaScript's `String.prototype.includes`. -/
def startsWithChars : List Char → List Char → Bool
  | _, [] => true
  | [], _ :: _ => false
  | h :: hs, p :: ps => h == p && startsWithChars hs ps

/-- Substring test on character lists: does `pat` occur contiguously inside
`hay`?  Mirrors JavaScript `hay.includes(pat)`. -/
def hasSub : List Char → List Char → Bool
  | [], pat => pat.isEmpty
  | h :: t, pat => startsWithChars (h :: t) pat || hasSub t pat

/-- String form of `hasSub`; models `s.includes(pat)`. -/
def strContains (s pat : String) : Bool :=
  hasSub s.toList pat.toList

/-- Lower-case a string character by character; models `s.toLowerCase()`
(the sources only ever compare ASCII status strings). -/
def lowerStr (s : String) : String :=
  String.mk (s.toList.map Char.toLower)

/-- Card as displayed by the contract and consumed by the UI hook:
`{rank, suit, value}` (`CardDisplay` / `CardData` in the sources). -/
structure CardData where
  rank : String
  suit : String
  value : Nat
deriving DecidableEq, Repr

/-- Raw hand total before ace adjustment: `cards.reduce((sum, c) => sum + c.value, 0)`
from `calculateTotal` in the `useAutonomousPlayer` hook. -/
def rawTotal (cards : List CardData) : Nat :=
  (cards.map (fun c => c.value)).sum

/-- Number of aces: `cards.filter(c => c.rank === 'A').length` from the hook. -/
def aceCount (cards : List CardData) : Nat :=
  (cards.filter (fun c => c.rank == "A")).length

/-- The ace-adjustment loop shared by the hook's `calculateTotal` and the
contract's `_calculateHandValue`:
`while (total > 21 && aces > 0) { total -= 10; aces--; }`. -/
def adjustForAces : Nat → Nat → Nat
  | total, 0 => total
  | total, aces + 1 => if 21 < total then adjustForAces (total - 10) aces else total

/-- `calculateTotal` from the `useAutonomousPlayer` hook (sum of card
values, then the ace-adjustment while loop). -/
def calculateTotal (cards : List CardData) : Nat :=
  adjustForAces (rawTotal cards) (aceCount cards)

/-- `_cardValue` from `Blackjack.sol`: rank index `cardId % 13`; rank 0 is
an ace worth 11, ranks 9..12 (10, J, Q, K) are worth 10, otherwise
`rank + 1`. -/
def cardValue (cardId : Nat) : Nat :=
  let rank := cardId % 13
  if rank == 0 then 11 else if 9 ≤ rank then 10 else rank + 1

/-- Raw total of a contract hand (the accumulation loop of
`_calculateHandValue`). -/
def rawHandValue (hand : List Nat) : Nat :=
  (hand.map cardValue).sum

/-- Ace count of a contract hand (`if (value == 11) aces++` in
`_calculateHandValue`). -/
def handAceCount (hand : List Nat) : Nat :=
  (hand.filter (fun c => cardValue c == 11)).length

/-- `_calculateHandValue` from `Blackjack.sol`: 0 for an empty hand,
otherwise raw sum followed by the ace-adjustment loop. -/
def calculateHandValue (hand : List Nat) : Nat :=
  if hand.isEmpty then 0
  else adjustForAces (rawHandValue hand) (handAceCount hand)

/-- On-chain hand state, `enum HandState` in `game-loop.ts` and
`rpc-client.ts` (mirrors `Blackjack.sol`). -/
inductive HandState where
  | NoneState
  | PendingInitialDeal
  | Active
  | PendingHit
  | PendingStand
  | Busted
  | Finished
deriving DecidableEq, Repr

/-- The `GameDisplay` snapshot returned by the contract's
`getGameDisplay` and consumed by `getGameStatus` (`rpc-client.ts`).
`bigint` fields are modelled as `Nat`. -/
structure GameDisplay where
  status : String
  playerCards : List CardData
  playerTotal : Nat
  dealerCards : List CardData
  dealerTotal : Nat
  canHit : Bool
  canStand : Bool
  canStartNew : Bool
  secondsUntilCanAct : Nat
  gameId : Nat
deriving DecidableEq, Repr

/-- `enum GameResult` from `game-loop.ts`. -/
inductive GameResult where
  | WIN
  | LOSS
  | PUSH
  | BUST
  | UNKNOWN
deriving DecidableEq, Repr

/-- `interface GameStats` from `game-loop.ts`.  The counters are JS
numbers used as integers (`Nat` here); `winRate` is a JS float modelled
exactly as a rational. -/
structure GameStats where
  gamesPlayed : Nat
  wins : Nat
  losses : Nat
  pushes : Nat
  busts : Nat
  winRate : ℚ
  currentStreak : Nat
  longestWinStreak : Nat
  longestLossStreak : Nat
deriving DecidableEq, Repr

/-- The all-zero statistics a fresh `GameLoop` starts with when no
contract history is available (`game-loop.ts` constructor defaults). -/
def freshStats : GameStats :=
  { gamesPlayed := 0, wins := 0, losses := 0, pushes := 0, busts := 0,
    winRate := 0, currentStreak := 0, longestWinStreak := 0, longestLossStreak := 0 }

/-- `GameLoop.updateStats` (`game-loop.ts` lines 218-240): increment
`gamesPlayed`, bump the counter matching the result (BUST bumps both
`busts` and `losses`, UNKNOWN bumps nothing), then recompute `winRate`.
The streak fields are never touched by this method. -/
def updateStats (s : GameStats) (result : GameResult) : GameStats :=
  let s1 := { s with gamesPlayed := s.gamesPlayed + 1 }
  let s2 :=
    match result with
    | .WIN => { s1 with wins := s1.wins + 1 }
    | .LOSS => { s1 with losses := s1.losses + 1 }
    | .BUST => { s1 with busts := s1.busts + 1, losses := s1.losses + 1 }
    | .PUSH => { s1 with pushes := s1.pushes + 1 }
    | .UNKNOWN => s1
  { s2 with winRate := if 0 < s2.gamesPlayed then (s2.wins : ℚ) / (s2.gamesPlayed : ℚ) else 0 }

/-- `GameLoop.parseGameResult` (`game-loop.ts` lines 245-259): classify a
status string by lower-cased substring matching, in source order. -/
def parseGameResult (status : String) : GameResult :=
  let s := lowerStr status
  if strContains s "you win" || strContains s "blackjack" then .WIN
  else if strContains s "dealer wins" then .LOSS
  else if strContains s "busted" then .BUST
  else if strContains s "push" then .PUSH
  else .UNKNOWN

/-- `GameLoop.parseGameResult` applied to a terminal snapshot, exactly as
`startGame` does at `game-loop.ts:189` (`parseGameResult(afterDeal.status)`):
only the status string of the snapshot is consulted. -/
def classifyCode (g : GameDisplay) : GameResult :=
  parseGameResult g.status

/-- Modelled from the spec (section 4.3 outcome classification): compare
the terminal snapshot's totals; player over 21 is a bust loss, else a
dealer over 21 is a win, else the higher total wins and equal totals
push.  Stated here only to compare against `classifyCode`. -/
def classifyFromTotalsSpec (playerTotal dealerTotal : Nat) : GameResult :=
  if 21 < playerTotal then .BUST
  else if 21 < dealerTotal then .WIN
  else if dealerTotal < playerTotal then .WIN
  else if playerTotal < dealerTotal then .LOSS
  else .PUSH

/-- `BlackjackRPCClient.isGameComplete` (`rpc-client.ts` lines 306-316). -/
def isGameComplete (status : String) : Bool :=
  let s := lowerStr status
  strContains s "you win" || strContains s "dealer wins" || strContains s "push" ||
    strContains s "busted" || strContains s "finished" || strContains s "game over"

/-- `BlackjackRPCClient.isWaitingForVRF` (`rpc-client.ts` lines 294-301). -/
def isWaitingForVRF (status : String) : Bool :=
  let s := lowerStr status
  strContains s "dealing" || strContains s "drawing" || strContains s "dealer playing"

/-- The still-pending predicate of `BlackjackRPCClient.pollForStateChange`
(`rpc-client.ts` lines 253-256): the snapshot is still in the expected
pending phase when the lower-cased status contains the phase's keyword. -/
def stillPending (initialState : HandState) (status : String) : Bool :=
  let s := lowerStr status
  match initialState with
  | .PendingInitialDeal => strContains s "dealing"
  | .PendingHit => strContains s "drawing"
  | .PendingStand => strContains s "dealer playing"
  | _ => false

/-- The terminal-or-actionable predicate of the action provider's
`pollGameState` (`blackjackActionProvider.ts` lines 151-155). -/
def isInFinalState (g : GameDisplay) : Bool :=
  let s := lowerStr g.status
  strContains s "your turn" || strContains s "busted" ||
    strContains s "game finished" || g.canStartNew

/-- `GameLoop.getDecision` (`game-loop.ts` lines 459-467): the built-in
strategy returns the string `"hit"` on a player total below 17 and
`"stand"` otherwise; the other three arguments are ignored. -/
def getDecision (playerTotal dealerTotal : Nat)
    (playerCards dealerCards : List CardData) : String :=
  if playerTotal < 17 then "hit" else "stand"

/-- Failure modes of the embedded loop.  `vrfTimeout` is the
`Timeout waiting for state change` error of `pollForStateChange` (and the
VRF-timeout error of `pollGameState`), `stoppedByUser` is the thrown
`Stopped by user`, `startFailed` the thrown `Failed to start game`,
`protocolMismatch` the fail-fast error in `pollGameState`, and `fuelOut`
is a modelling artifact marking executions longer than the supplied fuel
(no theorem relies on it). -/
inductive LoopErr where
  | vrfTimeout
  | stoppedByUser
  | startFailed
  | protocolMismatch
  | fuelOut
deriving DecidableEq, Repr

/-- `BlackjackRPCClient.pollForStateChange` (`rpc-client.ts` lines
232-269): read a snapshot; if it still matches the expected pending
phase, sleep and re-read, otherwise return it as success.  `fuel` bounds
the number of reads inside `maxWaitTime` (300000 ms / 2000 ms = 150);
running out of fuel is the timeout error.  `i` is the read-stream cursor;
the returned cursor points past the consumed reads.  Note the function
has no cancellation parameter and no other exit. -/
def pollForStateChange (initialState : HandState) (reads : Nat → GameDisplay) :
    Nat → Nat → Except LoopErr (GameDisplay × Nat)
  | 0, _ => .error .vrfTimeout
  | fuel + 1, i =>
    let g := reads i
    if stillPending initialState g.status then
      pollForStateChange initialState reads fuel (i + 1)
    else
      .ok (g, i + 1)

/-- The call-site semantics of `pollForStateChange` as invoked from
`GameLoop.playHand` and `GameLoop.startGame` (`game-loop.ts` lines 172,
444 and 448): the caller passes `this.shouldStop` as a third argument,
but the implementation declares only `(initialState, maxWaitTime)`, so
under JavaScript semantics the callback is discarded. -/
def pollForStateChangeWithStop (shouldStop : Nat → Bool) (initialState : HandState)
    (reads : Nat → GameDisplay) (fuel i : Nat) : Except LoopErr (GameDisplay × Nat) :=
  pollForStateChange initialState reads fuel i

/-- `BlackjackActionProvider.pollGameState` (`blackjackActionProvider.ts`
lines 109-174).  `pollCount` here is zero-based (the TS counter starts at
1), so the fail-fast guard `pollCount === 1` becomes `pollCount == 0`.
On the first read, a state that is neither the expected pending phase nor
terminal/actionable raises the protocol-mismatch error; a resolved state
is returned once the pending phase was observed or at least one earlier
poll happened; running out of fuel is the VRF timeout. -/
def pollGameState (initialState : HandState) (reads : Nat → GameDisplay) :
    Nat → Nat → Except LoopErr GameDisplay
  | 0, _ => .error .vrfTimeout
  | fuel + 1, pollCount =>
    let g := reads pollCount
    let pending := stillPending initialState g.status
    let finalSt := isInFinalState g
    if pollCount == 0 && !pending && !finalSt then .error .protocolMismatch
    else if (!(pollCount == 0) || pending) && finalSt then .ok g
    else pollGameState initialState reads fuel (pollCount + 1)

/-- `BlackjackRPCClient.waitForTradingPeriod` (`rpc-client.ts` lines
274-289): re-read the snapshot every 2 seconds until
`secondsUntilCanAct` reaches 0, returning the advanced cursor.  Like
`pollForStateChange`, the implementation declares no parameters, so the
`shouldStop` callback passed at `game-loop.ts:209` and `game-loop.ts:348`
is discarded. -/
def waitForTradingPeriod (reads : Nat → GameDisplay) :
    Nat → Nat → Except LoopErr Nat
  | 0, _ => .error .fuelOut
  | fuel + 1, i =>
    let g := reads i
    if g.secondsUntilCanAct == 0 then .ok (i + 1)
    else waitForTradingPeriod reads fuel (i + 1)

/-- `GameLoop.playHand` (`game-loop.ts` lines 373-454).  One loop
iteration: check the stop flag, read a snapshot, exit when the status is
complete, keep waiting while a VRF callback or an action gate is pending,
otherwise decide via `getDecision` and submit.  A `hit` polls for the
`PendingHit` phase to resolve and loops; a `stand` polls for
`PendingStand` and then breaks.  The flag is modelled as a constant
(covering any execution during which the flag does not change).  Note the
loop exits (on completion or after a stand) return the statistics
unchanged: no path of this method calls `updateStats`.  `fuel` bounds the
number of loop iterations; `pollFuel` is handed to the inner pollers. -/
def playHand (shouldStop : Bool) (reads : Nat → GameDisplay) (pollFuel : Nat) :
    Nat → Nat → GameStats → Except LoopErr (GameStats × Nat)
  | 0, _, _ => .error .fuelOut
  | fuel + 1, i, stats =>
    if shouldStop then .error .stoppedByUser
    else
      let g := reads i
      if isGameComplete g.status then .ok (stats, i + 1)
      else if isWaitingForVRF g.status then playHand shouldStop reads pollFuel fuel (i + 1) stats
      else if !g.canHit && !g.canStand then playHand shouldStop reads pollFuel fuel (i + 1) stats
      else if shouldStop then .error .stoppedByUser
      else
        let decision := getDecision g.playerTotal g.dealerTotal g.playerCards g.dealerCards
        if shouldStop then .error .stoppedByUser
        else if decision == "hit" then
          match pollForStateChangeWithStop (fun _ => shouldStop) .PendingHit reads pollFuel (i + 1) with
          | .error e => .error e
          | .ok (_, i2) => playHand shouldStop reads pollFuel fuel i2 stats
        else
          match pollForStateChangeWithStop (fun _ => shouldStop) .PendingStand reads pollFuel (i + 1) with
          | .error e => .error e
          | .ok (_, i2) => .ok (stats, i2)

/-- `GameLoop.startGame` (`game-loop.ts` lines 155-213).  `startOk` is the
outcome of the start-transaction submission (`executeAction("start")`); a
false outcome throws `Failed to start game`.  Then the initial deal is
polled for; if the resulting snapshot is already complete (instant
blackjack fast path) the result is parsed and the statistics updated —
the only call to `updateStats` in the whole cycle — otherwise the trading
period is waited out and the hand is played.  The fast path's winnings
claim does not consume snapshot reads or touch the statistics and is
omitted. -/
def startGameE (shouldStop startOk : Bool) (reads : Nat → GameDisplay)
    (pollFuel handFuel i : Nat) (stats : GameStats) : Except LoopErr (GameStats × Nat) :=
  if shouldStop then .error .stoppedByUser
  else if !startOk then .error .startFailed
  else
    match pollForStateChangeWithStop (fun _ => shouldStop) .PendingInitialDeal reads pollFuel i with
    | .error e => .error e
    | .ok (afterDeal, i1) =>
      if isGameComplete afterDeal.status then
        .ok (updateStats stats (parseGameResult afterDeal.status), i1)
      else
        match waitForTradingPeriod reads pollFuel i1 with
        | .error e => .error e
        | .ok i2 => playHand shouldStop reads pollFuel handFuel i2 stats

/-- The four branches of the resumption decision in
`GameLoop.runGameCycle` (`game-loop.ts` lines 287-367). -/
inductive PlannerBranch where
  | claimThenRestart
  | resumeActive
  | startFresh
  | unknownState
deriving DecidableEq, Repr

/-- The branch selection of `runGameCycle`, evaluated top to bottom on
the fresh snapshot exactly as the source's if/else chain (lines 315, 336,
355): a complete game with a nonzero id claims then restarts; otherwise
`canStartNew == false` with a nonzero id resumes the active hand;
otherwise `canStartNew == true` starts fresh; otherwise the state is
unknown. -/
def planBranch (g : GameDisplay) : PlannerBranch :=
  if isGameComplete g.status ∧ 0 < g.gameId then .claimThenRestart
  else if !g.canStartNew ∧ 0 < g.gameId then .resumeActive
  else if g.canStartNew then .startFresh
  else .unknownState

/-- Which branches reach a new-game submission: `claimThenRestart` calls
`startGame` after the claim attempt (`game-loop.ts:333`) and `startFresh`
calls it directly (`game-loop.ts:357`). -/
def branchSubmitsNewGame : PlannerBranch → Bool
  | .claimThenRestart => true
  | .startFresh => true
  | .resumeActive => false
  | .unknownState => false

/-- `GameLoop.claimWinnings` (`game-loop.ts` lines 264-282): read the
claimable amount, send the claim transaction when it is positive, and
swallow every failure in the surrounding try/catch (the method never
rethrows).  The boolean reports whether a claim transaction confirmed. -/
def claimWinningsStep (claimableRes : Except String Nat)
    (claimTxRes : Except String Unit) : Except String Bool :=
  match claimableRes with
  | .error _ => .ok false
  | .ok c =>
    if 0 < c then
      match claimTxRes with
      | .error _ => .ok false
      | .ok _ => .ok true
    else .ok false

/-- Marker for what the cycle does after the claim phase. -/
inductive NextAction where
  | startNewGame
deriving DecidableEq, Repr

/-- The `ClaimThenRestart` branch of `runGameCycle` (`game-loop.ts` lines
314-334): the claimable check and claim sit inside their own try/catch
whose handler only logs, and `startGame` is invoked afterwards
unconditionally (line 333). -/
def claimThenRestartNext (claimableRes : Except String Nat)
    (claimTxRes : Except String Unit) : Except String NextAction :=
  let claimPhase : Except String Unit :=
    match claimableRes with
    | .error _ => .ok ()
    | .ok c =>
      if 0 < c then
        match claimWinningsStep claimableRes claimTxRes with
        | .error e => .error e
        | .ok _ => .ok ()
      else .ok ()
  match claimPhase with
  | .error e => .error e
  | .ok _ => .ok .startNewGame

/-- `GameLoop.runGameCycle` (`game-loop.ts` lines 287-367): check the stop
flag, read the fresh snapshot (cursor 0), then dispatch on `planBranch`.
The claim-then-restart branch runs the claim phase (which consumes no
snapshot reads) and starts a new game; the resume branch waits out a
pending trading period and plays the hand; the unknown branch emits an
error event and returns without throwing. -/
def runGameCycleE (shouldStop startOk : Bool) (claimableRes : Except String Nat)
    (claimTxRes : Except String Unit) (reads : Nat → GameDisplay)
    (pollFuel handFuel : Nat) (stats : GameStats) : Except LoopErr (GameStats × Nat) :=
  if shouldStop then .error .stoppedByUser
  else
    let g := reads 0
    match planBranch g with
    | .claimThenRestart =>
      match claimThenRestartNext claimableRes claimTxRes with
      | .error _ => .error .fuelOut
      | .ok _ => startGameE shouldStop startOk reads pollFuel handFuel 1 stats
    | .resumeActive =>
      if 0 < g.secondsUntilCanAct then
        match waitForTradingPeriod reads pollFuel 1 with
        | .error e => .error e
        | .ok i1 => playHand shouldStop reads pollFuel handFuel i1 stats
      else playHand shouldStop reads pollFuel handFuel 1 stats
    | .startFresh => startGameE shouldStop startOk reads pollFuel handFuel 1 stats
    | .unknownState => .ok (stats, 1)

/-- `AutonomousPlayerInstance.runContinuousLoop` (`autonomous-player.ts`
lines 158-214): run one cycle; on an error whose message is exactly
`Stopped by user` (the cooperative-cancellation throw of the game loop)
record nothing, otherwise record the message as the current error and
emit an `error` event; the finally block always emits a `status_update`
event.  The result is the recorded error and the list of emitted event
types. -/
def runContinuousLoop (cycleResult : Except String Unit) :
    Option String × List String :=
  match cycleResult with
  | .ok _ => (none, ["status_update"])
  | .error msg =>
    if msg = "Stopped by user" then (none, ["status_update"])
    else (some msg, ["error", "status_update"])

/-- A blank snapshot used as a base for the concrete traces below. -/
def baseSnap : GameDisplay :=
  { status := "", playerCards := [], playerTotal := 0, dealerCards := [],
    dealerTotal := 0, canHit := false, canStand := false, canStartNew := false,
    secondsUntilCanAct := 0, gameId := 0 }

/-- Snapshot of an identity with no game yet: `gameId 0`,
`canStartNew true`, status `No active game` (`Blackjack.sol:1040`). -/
def snapNoGame : GameDisplay :=
  { baseSnap with status := "No active game", canStartNew := true }

/-- Snapshot during the initial deal, status `Dealing cards...`
(`Blackjack.sol:1041`). -/
def snapDealing : GameDisplay :=
  { baseSnap with status := "Dealing cards...", gameId := 1 }

/-- Scenario-1 active snapshot: two player cards totalling 19, dealer
showing 17, status `Your turn` (`Blackjack.sol:1045`), hit and stand
both legal. -/
def snapYourTurn : GameDisplay :=
  { baseSnap with
    status := "Your turn",
    playerCards := [⟨"9", "Spades", 9⟩, ⟨"10", "Hearts", 10⟩],
    playerTotal := 19,
    dealerCards := [⟨"10", "Clubs", 10⟩, ⟨"7", "Diamonds", 7⟩],
    dealerTotal := 17,
    canHit := true, canStand := true, gameId := 1 }

/-- Snapshot while the stand's VRF callback resolves the dealer's play,
status `Dealer playing...` (`Blackjack.sol:1047`). -/
def snapDealerPlaying : GameDisplay :=
  { baseSnap with status := "Dealer playing...", gameId := 1 }

/-- Scenario-1 terminal snapshot: dealer drew to 20 against the player's
19, status `Game finished` (`Blackjack.sol:1049`). -/
def snapFinished : GameDisplay :=
  { baseSnap with
    status := "Game finished",
    playerCards := [⟨"9", "Spades", 9⟩, ⟨"10", "Hearts", 10⟩],
    playerTotal := 19,
    dealerCards := [⟨"10", "Clubs", 10⟩, ⟨"7", "Diamonds", 7⟩, ⟨"3", "Hearts", 3⟩],
    dealerTotal := 20,
    canStartNew := true, gameId := 1 }

/-- A first post-submit read that is neither the expected pending phase
nor terminal/actionable: the contract's `unknown state` fallback
(`Blackjack.sol` `_getStateName`). -/
def unknownSnap : GameDisplay :=
  { baseSnap with status := "unknown state", gameId := 1 }

/-- A snapshot stuck waiting for a hit's VRF callback, status
`Drawing card...` (`Blackjack.sol:1046`). -/
def stuckDrawing : GameDisplay :=
  { baseSnap with status := "Drawing card...", gameId := 1 }

/-- The read stream of end-to-end scenario 1: fresh identity, start
submitted, initial deal resolves to a 19-total hand, the built-in
strategy stands, the dealer plays to 20, the game finishes. -/
def scn1Reads : Nat → GameDisplay
  | 0 => snapNoGame
  | 1 => snapDealing
  | 2 => snapYourTurn
  | 3 => snapYourTurn
  | 4 => snapYourTurn
  | 5 => snapDealerPlaying
  | _ => snapFinished

/-- The ace-adjustment loop never leaves the total above 21 as long as the
excess over 21 is covered by 10 per ace. -/
theorem adjustForAces_le (aces : Nat) :
    ∀ total : Nat, total ≤ 21 + 10 * aces → adjustForAces total aces ≤ 21 := by
  induction aces with
  | zero =>
    intro total h
    simpa [adjustForAces] using h
  | succ n ih =>
    intro total h
    by_cases hgt : 21 < total
    · have hle : total - 10 ≤ 21 + 10 * n := by omega
      simpa [adjustForAces, hgt] using ih (total - 10) hle
    · simp [adjustForAces, hgt]
      omega

/-- C6: the hand value is the raw sum of card values with 10 subtracted
per ace while the total exceeds 21 and unadjusted aces remain; the pairs
A,A give 12, A,K give 21, A,6,6 give 13 (both in the hook's
`calculateTotal` and the contract's `_calculateHandValue`, where card ids
0 and 13 are aces, 12 is a king and 5 and 18 are sixes); and the value is
at most 21 whenever at least one ace is present and the raw sum exceeds
21 by at most 10 per ace. -/
theorem c6_hand_value_adjustment :
    calculateTotal [⟨"A", "Spades", 11⟩, ⟨"A", "Hearts", 11⟩] = 12 ∧
    calculateTotal [⟨"A", "Spades", 11⟩, ⟨"K", "Hearts", 10⟩] = 21 ∧
    calculateTotal [⟨"A", "Spades", 11⟩, ⟨"6", "Hearts", 6⟩, ⟨"6", "Clubs", 6⟩] = 13 ∧
    calculateHandValue [0, 13] = 12 ∧
    calculateHandValue [0, 12] = 21 ∧
    calculateHandValue [0, 5, 18] = 13 ∧
    (∀ cards : List CardData,
      calculateTotal cards = adjustForAces (rawTotal cards) (aceCount cards)) ∧
    (∀ cards : List CardData, 1 ≤ aceCount cards →
      rawTotal cards ≤ 21 + 10 * aceCount cards → calculateTotal cards ≤ 21) ∧
    (∀ hand : List Nat, 1 ≤ handAceCount hand →
      rawHandValue hand ≤ 21 + 10 * handAceCount hand → calculateHandValue hand ≤ 21) := by
  refine ⟨by decide, by decide, by decide, by decide, by decide, by decide,
    fun _ => rfl, ?_, ?_⟩
  · intro cards _ h
    exact adjustForAces_le (aceCount cards) (rawTotal cards) h
  · intro hand _ h
    by_cases he : hand.isEmpty
    · simp [calculateHandValue, he]
    · simpa [calculateHandValue, he] using
        adjustForAces_le (handAceCount hand) (rawHandValue hand) h

/-- Witness for C6: the hand A,K,5 has an ace, its raw sum 26 exceeds 21
by at most 10 per ace, and its adjusted value is at most 21. -/
theorem c6_witness :
    1 ≤ aceCount [⟨"A", "Spades", 11⟩, ⟨"K", "Hearts", 10⟩, ⟨"5", "Clubs", 5⟩] ∧
    rawTotal [⟨"A", "Spades", 11⟩, ⟨"K", "Hearts", 10⟩, ⟨"5", "Clubs", 5⟩] ≤
      21 + 10 * aceCount [⟨"A", "Spades", 11⟩, ⟨"K", "Hearts", 10⟩, ⟨"5", "Clubs", 5⟩] ∧
    calculateTotal [⟨"A", "Spades", 11⟩, ⟨"K", "Hearts", 10⟩, ⟨"5", "Clubs", 5⟩] ≤ 21 :=
  ⟨by decide, by decide,
    c6_hand_value_adjustment.2.2.2.2.2.2.2.1
      [⟨"A", "Spades", 11⟩, ⟨"K", "Hearts", 10⟩, ⟨"5", "Clubs", 5⟩]
      (by decide) (by decide)⟩

/-- C10: the built-in decision function returns `hit` exactly on a player
total below 17 and `stand` otherwise, and its output is a function of the
player total alone — the dealer total and both card lists are
irrelevant. -/
theorem c10_decision_threshold :
    ∀ (pt dt : Nat) (pc dc : List CardData),
      (getDecision pt dt pc dc = "hit" ↔ pt < 17) ∧
      (getDecision pt dt pc dc = "stand" ↔ 17 ≤ pt) ∧
      (∀ (dt2 : Nat) (pc2 dc2 : List CardData),
        getDecision pt dt pc dc = getDecision pt dt2 pc2 dc2) := by
  intro pt dt pc dc
  refine ⟨?_, ?_, fun _ _ _ => rfl⟩ <;>
    · by_cases h : pt < 17 <;> simp [getDecision, h] <;> omega

/-- C5: every snapshot with `canStartNew == true` is routed by the
resumption branching of `runGameCycle` to a branch that submits a new
game — directly to `startFresh`, or to `claimThenRestart` whose claim
attempt falls through to the same `startGame` call — and never to
`resumeActive`, whatever the other snapshot fields hold. -/
theorem c5_canStartNew_never_resume :
    ∀ g : GameDisplay, g.canStartNew = true →
      planBranch g ≠ PlannerBranch.resumeActive ∧
      branchSubmitsNewGame (planBranch g) = true := by
  intro g h
  unfold planBranch
  split
  · exact ⟨by decide, rfl⟩
  · rw [if_neg (by simp [h])]
    exact ⟨by decide, rfl⟩

/-- Witness for C5: the fresh-identity snapshot has `canStartNew` set,
avoids the resume branch and reaches a new-game submission. -/
theorem c5_witness :
    snapNoGame.canStartNew = true ∧
    (planBranch snapNoGame ≠ PlannerBranch.resumeActive ∧
      branchSubmitsNewGame (planBranch snapNoGame) = true) :=
  ⟨rfl, c5_canStartNew_never_resume snapNoGame rfl⟩

/-- C7: whatever the claimable-amount read and the claim transaction
return — including a failing claim transaction — the claim phase of the
claim-then-restart branch swallows the failure (the step always resolves,
never rejects) and the cycle proceeds to start a new game. -/
theorem c7_claim_failure_nonfatal :
    ∀ (claimableRes : Except String Nat) (claimTxRes : Except String Unit),
      claimThenRestartNext claimableRes claimTxRes = Except.ok NextAction.startNewGame ∧
      (∃ b, claimWinningsStep claimableRes claimTxRes = Except.ok b) := by
  intro cr tr
  cases cr with
  | error e => exact ⟨rfl, ⟨false, rfl⟩⟩
  | ok c =>
    by_cases h : 0 < c
    · cases tr with
      | error e =>
        refine ⟨?_, ⟨false, ?_⟩⟩ <;>
          simp [claimThenRestartNext, claimWinningsStep, h]
      | ok u =>
        refine ⟨?_, ⟨true, ?_⟩⟩ <;>
          simp [claimThenRestartNext, claimWinningsStep, h]
    · refine ⟨?_, ⟨false, ?_⟩⟩ <;>
        simp [claimThenRestartNext, claimWinningsStep, h]

/-- C8: a cycle that ends with the user-requested stop (the thrown
`Stopped by user`) leaves the recorded error unset and emits no `error`
event, while a cycle ending with any other failure message records that
message and emits an `error` event. -/
theorem c8_cancelled_not_lastError :
    ((runContinuousLoop (Except.error "Stopped by user")).1 = none ∧
      "error" ∉ (runContinuousLoop (Except.error "Stopped by user")).2) ∧
    (∀ msg : String, msg ≠ "Stopped by user" →
      (runContinuousLoop (Except.error msg)).1 = some msg ∧
      "error" ∈ (runContinuousLoop (Except.error msg)).2) := by
  refine ⟨⟨by decide, by decide⟩, ?_⟩
  intro msg h
  rw [runContinuousLoop, if_neg h]
  exact ⟨rfl, by simp⟩

/-- Witness for C8: the VRF-timeout message is not the cancellation
message, is recorded as the error and produces an `error` event. -/
theorem c8_witness :
    ("Timeout waiting for state change" ≠ "Stopped by user") ∧
    ((runContinuousLoop (Except.error "Timeout waiting for state change")).1 =
        some "Timeout waiting for state change" ∧
      "error" ∈ (runContinuousLoop (Except.error "Timeout waiting for state change")).2) :=
  ⟨by decide,
    c8_cancelled_not_lastError.2 "Timeout waiting for state change" (by decide)⟩

/-- C9: each call to `updateStats` adds exactly 1 to `gamesPlayed`; WIN,
LOSS and PUSH bump exactly their own counter, BUST bumps both `busts` and
`losses`, UNKNOWN bumps no outcome counter (so when the outcome counters
were bounded by `gamesPlayed` before, they fall strictly below it after an
UNKNOWN); and the resulting `winRate` is exactly
`wins / gamesPlayed`. -/
theorem c9_updateStats_invariants :
    ∀ (s : GameStats) (r : GameResult),
      (updateStats s r).gamesPlayed = s.gamesPlayed + 1 ∧
      (r = GameResult.WIN → (updateStats s r).wins = s.wins + 1 ∧
        (updateStats s r).losses = s.losses ∧ (updateStats s r).pushes = s.pushes ∧
        (updateStats s r).busts = s.busts) ∧
      (r = GameResult.LOSS → (updateStats s r).losses = s.losses + 1 ∧
        (updateStats s r).wins = s.wins ∧ (updateStats s r).pushes = s.pushes ∧
        (updateStats s r).busts = s.busts) ∧
      (r = GameResult.PUSH → (updateStats s r).pushes = s.pushes + 1 ∧
        (updateStats s r).wins = s.wins ∧ (updateStats s r).losses = s.losses ∧
        (updateStats s r).busts = s.busts) ∧
      (r = GameResult.BUST → (updateStats s r).busts = s.busts + 1 ∧
        (updateStats s r).losses = s.losses + 1 ∧ (updateStats s r).wins = s.wins ∧
        (updateStats s r).pushes = s.pushes) ∧
      (r = GameResult.UNKNOWN → (updateStats s r).wins = s.wins ∧
        (updateStats s r).losses = s.losses ∧ (updateStats s r).pushes = s.pushes ∧
        (updateStats s r).busts = s.busts) ∧
      (r = GameResult.UNKNOWN → s.wins + s.losses + s.pushes ≤ s.gamesPlayed →
        (updateStats s r).wins + (updateStats s r).losses + (updateStats s r).pushes <
          (updateStats s r).gamesPlayed) ∧
      (updateStats s r).winRate =
        ((updateStats s r).wins : ℚ) / ((updateStats s r).gamesPlayed : ℚ) := by
  intro s r
  cases r <;>
    refine ⟨rfl, ?_, ?_, ?_, ?_, ?_, ?_, ?_⟩ <;>
      simp [updateStats] <;> omega

/-- Witness for C9: fresh statistics satisfy the counter bound, and one
UNKNOWN result leaves the outcome counters strictly below the new
`gamesPlayed`. -/
theorem c9_witness :
    freshStats.wins + freshStats.losses + freshStats.pushes ≤ freshStats.gamesPlayed ∧
    (updateStats freshStats GameResult.UNKNOWN).wins +
        (updateStats freshStats GameResult.UNKNOWN).losses +
        (updateStats freshStats GameResult.UNKNOWN).pushes <
      (updateStats freshStats GameResult.UNKNOWN).gamesPlayed :=
  ⟨by decide,
    (c9_updateStats_invariants freshStats GameResult.UNKNOWN).2.2.2.2.2.2.1 rfl (by decide)⟩

/-- C2 counterexample: the RPC client's VRF poller, the one invoked by
the game loop after submitting hit, stand and start transactions, does
not fail fast.  On a first post-submit read whose state is neither the
expected pending phase (`Drawing card...` for a hit) nor any
terminal/actionable phase — here the contract's `unknown state` fallback
— it silently returns that snapshot as success instead of raising a
protocol-mismatch error. -/
theorem c2_counterexample_rpc_poller_silent_success :
    stillPending HandState.PendingHit unknownSnap.status = false ∧
    isInFinalState unknownSnap = false ∧
    pollForStateChangeWithStop (fun _ => false) HandState.PendingHit
        (fun _ => unknownSnap) 150 0 =
      Except.ok (unknownSnap, 1) :=
  ⟨by decide, by decide, rfl⟩

/-- C2 amended: the fail-fast invariant holds for the action provider's
poller `pollGameState` — a first read that is neither the expected
pending phase nor terminal/actionable raises the protocol-mismatch error
immediately — while the RPC client's `pollForStateChange` instead
returns the very first non-pending snapshot as success, whatever it is. -/
theorem c2_amended_fail_fast :
    (∀ (initialState : HandState) (reads : Nat → GameDisplay) (fuel : Nat),
      stillPending initialState (reads 0).status = false →
      isInFinalState (reads 0) = false →
      pollGameState initialState reads (fuel + 1) 0 =
        Except.error LoopErr.protocolMismatch) ∧
    (∀ (initialState : HandState) (reads : Nat → GameDisplay) (fuel i : Nat),
      stillPending initialState (reads i).status = false →
      pollForStateChange initialState reads (fuel + 1) i = Except.ok (reads i, i + 1)) := by
  constructor
  · intro st reads fuel h1 h2
    simp [pollGameState, h1, h2]
  · intro st reads fuel i h
    simp [pollForStateChange, h]

/-- Witness for C2: on a stream stuck at the contract's `unknown state`,
the action provider's poller raises the mismatch error on its first read,
and the RPC poller returns an actionable `Your turn` snapshot seen on a
first read as success. -/
theorem c2_witness :
    pollGameState HandState.PendingHit (fun _ => unknownSnap) 150 0 =
      Except.error LoopErr.protocolMismatch ∧
    pollForStateChange HandState.PendingHit (fun _ => snapYourTurn) 150 0 =
      Except.ok (snapYourTurn, 1) :=
  ⟨c2_amended_fail_fast.1 HandState.PendingHit (fun _ => unknownSnap) 149
      (by decide) (by decide),
    c2_amended_fail_fast.2 HandState.PendingHit (fun _ => snapYourTurn) 149 0 (by decide)⟩

/-- C3: the RPC client's VRF poller never honors the cancellation flag.
Its implementation declares no cancellation parameter (the
`this.shouldStop` argument passed by `playHand` is discarded under
JavaScript semantics, mirrored by `pollForStateChangeWithStop`), so on a
hit whose game stays in `Drawing card...` the poll runs to the end of its
time budget and fails with the timeout error — for every value of the
flag, including a flag that is already set — instead of failing with the
cancellation error within one poll interval as the claim requires. -/
theorem c3_poller_ignores_cancellation :
    ∀ (shouldStop : Nat → Bool) (fuel i : Nat),
      pollForStateChangeWithStop shouldStop HandState.PendingHit
        (fun _ => stuckDrawing) fuel i =
        Except.error LoopErr.vrfTimeout := by
  intro stop fuel
  induction fuel with
  | zero => intro i; rfl
  | succ n ih =>
    intro i
    have hp : stillPending HandState.PendingHit stuckDrawing.status = true := by decide
    simp only [pollForStateChangeWithStop, pollForStateChange, hp, if_true]
    exact ih (i + 1)

/-- C1: evaluation of the full game cycle on the scenario-1 trace (fresh
identity, StartFresh, initial deal resolves to a 19-total hand, the
built-in strategy stands, the dealer plays to 20, terminal snapshot
`Game finished`).  The hand concludes, yet the cycle returns with the
statistics object unchanged: `playHand` exits its loop after the stand's
`PendingStand` poll resolves without ever calling `updateStats` (the only
`updateStats` call sits in `startGame`'s instant-completion fast path),
so `gamesPlayed` stays 0 and `losses` stays 0 where the claim requires
`gamesPlayed` to rise by 1 and `losses == 1`. -/
theorem c1_scenario1_stats_never_updated :
    runGameCycleE false true (Except.ok 0) (Except.ok ()) scn1Reads 150 10 freshStats =
      Except.ok (freshStats, 7) ∧
    freshStats.gamesPlayed = 0 ∧ freshStats.losses = 0 ∧
    (scn1Reads 6).playerTotal = 19 ∧ (scn1Reads 6).dealerTotal = 20 ∧
    isGameComplete (scn1Reads 6).status = true :=
  ⟨rfl, rfl, rfl, rfl, rfl, by decide⟩

/-- C4 counterexample: the claim's totals-based rule classifies the
scenario-1 terminal snapshot (player 19, dealer 20, status
`Game finished`) as a LOSS, but the code's classifier — `parseGameResult`
applied to the snapshot's status string, as `startGame` does — returns
UNKNOWN for it: the classification is not derived from the snapshot's
totals. -/
theorem c4_counterexample_status_not_totals :
    classifyCode snapFinished = GameResult.UNKNOWN ∧
    classifyFromTotalsSpec snapFinished.playerTotal snapFinished.dealerTotal =
      GameResult.LOSS ∧
    classifyCode snapFinished ≠
      classifyFromTotalsSpec snapFinished.playerTotal snapFinished.dealerTotal :=
  ⟨by decide, by decide, by decide⟩

/-- C4 amended: the outcome at game completion is classified from the
terminal snapshot's status string alone — two snapshots with equal status
strings classify identically whatever their totals — by case-insensitive
substring matching with source priority: `you win` or `blackjack` gives
WIN, else `dealer wins` gives LOSS, else `busted` gives BUST, else `push`
gives PUSH, and a status with none of the keywords (such as the
contract's `Game finished`) gives UNKNOWN rather than a totals
comparison. -/
theorem c4_amended_status_string_classification :
    (∀ g g2 : GameDisplay, g.status = g2.status → classifyCode g = classifyCode g2) ∧
    (∀ s : String,
      (strContains (lowerStr s) "you win" || strContains (lowerStr s) "blackjack") = true →
      parseGameResult s = GameResult.WIN) ∧
    (∀ s : String,
      (strContains (lowerStr s) "you win" || strContains (lowerStr s) "blackjack") = false →
      strContains (lowerStr s) "dealer wins" = true →
      parseGameResult s = GameResult.LOSS) ∧
    (∀ s : String,
      (strContains (lowerStr s) "you win" || strContains (lowerStr s) "blackjack") = false →
      strContains (lowerStr s) "dealer wins" = false →
      strContains (lowerStr s) "busted" = true →
      parseGameResult s = GameResult.BUST) ∧
    (∀ s : String,
      (strContains (lowerStr s) "you win" || strContains (lowerStr s) "blackjack") = false →
      strContains (lowerStr s) "dealer wins" = false →
      strContains (lowerStr s) "busted" = false →
      strContains (lowerStr s) "push" = true →
      parseGameResult s = GameResult.PUSH) ∧
    (∀ s : String,
      (strContains (lowerStr s) "you win" || strContains (lowerStr s) "blackjack") = false →
      strContains (lowerStr s) "dealer wins" = false →
      strContains (lowerStr s) "busted" = false →
      strContains (lowerStr s) "push" = false →
      parseGameResult s = GameResult.UNKNOWN) := by
  refine ⟨fun g g2 h => by simp [classifyCode, h], ?_, ?_, ?_, ?_, ?_⟩ <;>
    · intro s
      intros
      simp [parseGameResult, *]

/-- Witness for C4: a status containing `dealer wins` but none of the
win keywords classifies as LOSS. -/
theorem c4_witness :
    parseGameResult "Dealer wins!" = GameResult.LOSS :=
  c4_amended_status_string_classification.2.2.1 "Dealer wins!" (by decide) (by decide)

end Blackjack
